import Mathlib

/-!
Verification of the design-patterns demo repository (Prototype, Singleton,
Proxy).  Each JavaScript demo is shallowly embedded: objects are association
lists from property names to values, the prototype chain is an explicit heap
of objects with parent pointers, the Singleton's module-level variables are an
explicit state record, and a Proxy is a target plus an optional pair of
interception callbacks.  Console output is modelled as returned lists of
strings; a JavaScript `return x` is modelled as an `Option`/`Except` result.
-/

namespace DesignPatterns

/-! ### Generic association lists (JavaScript object own-property tables)

JavaScript property assignment replaces an existing key in place (keeping
insertion order) and appends a fresh key at the end; property read returns the
first (unique) matching key. -/

def getAssoc {α : Type} : List (String × α) → String → Option α
  | [], _ => none
  | (k, w) :: rest, n => if k == n then some w else getAssoc rest n

def setAssoc {α : Type} : List (String × α) → String → α → List (String × α)
  | [], n, v => [(n, v)]
  | (k, w) :: rest, n, v =>
      if k == n then (k, v) :: rest else (k, w) :: setAssoc rest n v

theorem getAssoc_setAssoc_self {α : Type} (l : List (String × α)) (n : String) (v : α) :
    getAssoc (setAssoc l n v) n = some v := by
  induction l with
  | nil => simp [getAssoc, setAssoc]
  | cons kv rest ih =>
      by_cases h : kv.1 == n
      · simp [getAssoc, setAssoc, h]
      · simp [getAssoc, setAssoc, h, ih]

theorem getAssoc_setAssoc_ne {α : Type} (l : List (String × α)) (n m : String) (v : α)
    (hnm : n ≠ m) : getAssoc (setAssoc l n v) m = getAssoc l m := by
  induction l with
  | nil => simp [getAssoc, setAssoc, hnm]
  | cons kv rest ih =>
      by_cases h : kv.1 == n
      · have hk : kv.1 = n := by simpa using h
        simp [getAssoc, setAssoc, h, hk, hnm]
      · by_cases h2 : kv.1 == m
        · simp [getAssoc, setAssoc, h, h2]
        · simp [getAssoc, setAssoc, h, h2, ih]

/-! ### Prototype demo (`PrototypePattern`)

Values of the demo: strings (the `name` own property) and functions.  Every
function appearing in the demo is a constant closure (`bark`, `play`, `fly`
ignore `this`), so a function value is faithfully represented by the list of
console lines it prints and its optional return value. -/

inductive Val where
  | vStr : String → Val
  | vFun : List String → Option String → Val
deriving DecidableEq, Repr

/-- A JavaScript object: an own-property table plus a `__proto__` reference
(an address into the heap), exactly the structure the demo walks. -/
structure JSObject where
  props : List (String × Val)
  proto : Option Nat
deriving DecidableEq, Repr

abbrev Heap := List JSObject

def getOwn (o : JSObject) (p : String) : Option Val :=
  getAssoc o.props p

def setOwn (o : JSObject) (p : String) (v : Val) : JSObject :=
  { o with props := setAssoc o.props p v }

/-- Assignment such as `Dog.prototype.play = ...`: mutate the object stored at `addr` in place;
every object holding that address sees the update. -/
def heapModify : Heap → Nat → (JSObject → JSObject) → Heap
  | [], _, _ => []
  | o :: rest, 0, f => f o :: rest
  | o :: rest, Nat.succ n, f => o :: heapModify rest n f

def addMethod (h : Heap) (addr : Nat) (name : String) (v : Val) : Heap :=
  heapModify h addr (fun o => setOwn o name v)

/-- The sequence of objects JavaScript consults when resolving a property on
the object at `addr`: the object itself, then the objects its `__proto__`
chain points to.  `fuel` bounds the walk so the function is total. -/
def protoChain (h : Heap) : Nat → Nat → List JSObject
  | 0, _ => []
  | Nat.succ fuel, addr =>
      match h[addr]? with
      | none => []
      | some o =>
          match o.proto with
          | none => [o]
          | some p => o :: protoChain h fuel p

/-- Property resolution: own property first, else walk `__proto__`. -/
def lookupProp (h : Heap) : Nat → Nat → String → Option Val
  | 0, _, _ => none
  | Nat.succ fuel, addr, name =>
      match h[addr]? with
      | none => none
      | some o =>
          match getOwn o name with
          | some v => some v
          | none =>
              match o.proto with
              | none => none
              | some p => lookupProp h fuel p name

/-- Invoking a member: resolve it through the delegation chain; a member
found nowhere in the chain is the `PropertyNotFound` failure of the spec. -/
def invoke (h : Heap) (fuel addr : Nat) (name : String) : Except String Val :=
  match lookupProp h fuel addr name with
  | some v => Except.ok v
  | none => Except.error "PropertyNotFound"

/-- Whether some object in the delegation chain defines `name`. -/
def definedInChain (h : Heap) (fuel addr : Nat) (name : String) : Bool :=
  (protoChain h fuel addr).any (fun o => (getOwn o name).isSome)

/-! Concrete objects of the demo. -/

def barkFn : Val := Val.vFun [] (some "Woof!")

def playFn : Val := Val.vFun ["Playing now!"] none

def flyFn : Val := Val.vFun ["Flying!"] none

/-- The table `Dog.prototype`: holds `bark`. -/
def dogProtoObj : JSObject := { props := [("bark", barkFn)], proto := none }

/-- The table `SuperDog.prototype`: holds `fly`, delegates to `Dog.prototype`. -/
def superDogProtoObj : JSObject := { props := [("fly", flyFn)], proto := some 0 }

def dogDaisy : JSObject := { props := [("name", Val.vStr "Daisy")], proto := some 0 }

def dogMax : JSObject := { props := [("name", Val.vStr "Max")], proto := some 0 }

/-- The instance `dog7 = new SuperDog('Daisy')`: own `name`, delegates to
`SuperDog.prototype`. -/
def superDogDaisy : JSObject := { props := [("name", Val.vStr "Daisy")], proto := some 1 }

/-- The demo heap: address 0 is `Dog.prototype`, address 1 is
`SuperDog.prototype`, addresses 2 and 3 are two `Dog` instances, address 4 is
the `SuperDog` instance `dog7`. -/
def demoHeap : Heap := [dogProtoObj, superDogProtoObj, dogDaisy, dogMax, superDogDaisy]

/-! Heap-update lemmas. -/

theorem heapModify_getElem_self (h : Heap) (f : JSObject → JSObject) :
    ∀ a : Nat, (heapModify h a f)[a]? = (h[a]?).map f := by
  induction h with
  | nil => intro a; cases a <;> simp [heapModify]
  | cons o rest ih =>
      intro a
      cases a with
      | zero => simp [heapModify]
      | succ n => simp [heapModify, ih n]

theorem heapModify_getElem_ne (h : Heap) (f : JSObject → JSObject) :
    ∀ a b : Nat, a ≠ b → (heapModify h a f)[b]? = h[b]? := by
  induction h with
  | nil => intro a b _; cases a <;> simp [heapModify]
  | cons o rest ih =>
      intro a b hab
      cases a with
      | zero =>
          cases b with
          | zero => exact absurd rfl hab
          | succ m => simp [heapModify]
      | succ n =>
          cases b with
          | zero => simp [heapModify]
          | succ m => simpa [heapModify] using ih n m (by omega)

/-- Property resolution is exactly the first hit along the delegation chain. -/
theorem lookupProp_eq_findSome (h : Heap) (name : String) :
    ∀ fuel addr, lookupProp h fuel addr name
      = (protoChain h fuel addr).findSome? (fun o => getOwn o name) := by
  intro fuel
  induction fuel with
  | zero => intro addr; simp [lookupProp, protoChain]
  | succ fuel ih =>
      intro addr
      cases hobj : h[addr]? with
      | none => simp [lookupProp, protoChain, hobj]
      | some o =>
          cases hown : getOwn o name with
          | some v =>
              cases hp : o.proto <;>
                simp [lookupProp, protoChain, hobj, hown, hp, List.findSome?_cons]
          | none =>
              cases hp : o.proto with
              | none => simp [lookupProp, protoChain, hobj, hown, hp, List.findSome?_cons]
              | some p =>
                  simp [lookupProp, protoChain, hobj, hown, hp, List.findSome?_cons, ih p]

theorem findSome_eq_of_earliest {α β : Type} (f : α → Option β) :
    ∀ (l : List α) (i : Nat) (a : α) (b : β),
      l[i]? = some a → f a = some b →
      (∀ j, j < i → ∀ x, l[j]? = some x → f x = none) →
      l.findSome? f = some b := by
  intro l
  induction l with
  | nil => intro i a b hi _ _; simp at hi
  | cons x rest ih =>
      intro i a b hi hfa hearlier
      cases i with
      | zero =>
          have hxa : x = a := by simpa using hi
          subst hxa
          simp [List.findSome?_cons, hfa]
      | succ n =>
          have hx : f x = none := hearlier 0 (Nat.succ_pos n) x (by simp)
          have hrest : rest.findSome? f = some b := by
            apply ih n a b (by simpa using hi) hfa
            intro j hj y hjy
            exact hearlier (j + 1) (by omega) y (by simpa using hjy)
          simp [List.findSome?_cons, hx, hrest]

/-- After mutating the shared table at `p`, any instance that delegates to `p`
and does not shadow `name` resolves `name` to the new method. -/
theorem lookup_after_addMethod (h : Heap) (a p : Nat) (oa : JSObject)
    (name : String) (f : Val) (fuel : Nat)
    (ha : h[a]? = some oa) (hpa : oa.proto = some p)
    (hoa : getOwn oa name = none) (hp : (h[p]?).isSome) :
    lookupProp (addMethod h p name f) (fuel + 2) a name = some f := by
  by_cases hap : a = p
  · subst hap
    have hmod : (addMethod h a name f)[a]? = some (setOwn oa name f) := by
      rw [addMethod, heapModify_getElem_self, ha]; rfl
    show lookupProp _ (Nat.succ (fuel + 1)) a name = some f
    simp [lookupProp, hmod, getOwn, setOwn, getAssoc_setAssoc_self]
  · obtain ⟨op, hop⟩ := Option.isSome_iff_exists.mp hp
    have h1 : (addMethod h p name f)[a]? = some oa := by
      rw [addMethod, heapModify_getElem_ne _ _ p a (fun hc => hap hc.symm), ha]
    have h2 : (addMethod h p name f)[p]? = some (setOwn op name f) := by
      rw [addMethod, heapModify_getElem_self, hop]; rfl
    show lookupProp _ (Nat.succ (fuel + 1)) a name = some f
    simp only [lookupProp, h1, hoa, hpa]
    show lookupProp _ (Nat.succ fuel) p name = some f
    simp [lookupProp, h2, getOwn, setOwn, getAssoc_setAssoc_self]

/-- C1 (Prototype sharing): for any two instances `a`, `b` delegating to the
same shared behavior table `p`, adding a method named `name` to that table
after both instances exist makes `name` resolve on both `a` and `b` to the
very same function value `f` — the mutation is immediately visible to all
existing instances, with identical behavior on both. -/
theorem prototype_sharing (h : Heap) (a b p : Nat) (oa ob : JSObject)
    (name : String) (f : Val) (fuel : Nat)
    (ha : h[a]? = some oa) (hb : h[b]? = some ob)
    (hpa : oa.proto = some p) (hpb : ob.proto = some p)
    (hoa : getOwn oa name = none) (hob : getOwn ob name = none)
    (hp : (h[p]?).isSome) :
    lookupProp (addMethod h p name f) (fuel + 2) a name = some f
    ∧ lookupProp (addMethod h p name f) (fuel + 2) b name = some f :=
  ⟨lookup_after_addMethod h a p oa name f fuel ha hpa hoa hp,
   lookup_after_addMethod h b p ob name f fuel hb hpb hob hp⟩

/-- Witness for C1 at the demo heap: after `Dog.prototype.play = ...`, both
`dog4` (address 2) and `dog5` (address 3) resolve `play` to the new method. -/
theorem prototype_sharing_witness :
    lookupProp (addMethod demoHeap 0 "play" playFn) 2 2 "play" = some playFn
    ∧ lookupProp (addMethod demoHeap 0 "play" playFn) 2 3 "play" = some playFn :=
  prototype_sharing demoHeap 2 3 0 dogDaisy dogMax "play" playFn 0
    rfl rfl rfl rfl rfl rfl rfl

/-- C5 (Chain delegation): the three-level chain `dog7` (a `SuperDog`
instance) → `SuperDog.prototype` → `Dog.prototype` resolves `bark`, which is
defined only on `Dog.prototype`: neither the instance nor the intermediate
table defines it. -/
theorem chain_delegation :
    invoke demoHeap 3 4 "bark" = Except.ok barkFn
    ∧ getOwn superDogDaisy "bark" = none
    ∧ getOwn superDogProtoObj "bark" = none :=
  ⟨rfl, rfl, rfl⟩

/-- C6 (PropertyNotFound): invoking a member fails with `PropertyNotFound`
exactly when the name is defined neither on the instance's own data nor on any
ancestor behavior table in the delegation chain; and when it is defined
somewhere, the earliest definition along the chain is the one used, with no
error raised. -/
theorem propertyNotFound_correct (h : Heap) (fuel addr : Nat) (name : String) :
    (invoke h fuel addr name = Except.error "PropertyNotFound"
        ↔ definedInChain h fuel addr name = false)
    ∧ (∀ (i : Nat) (o : JSObject) (v : Val),
        (protoChain h fuel addr)[i]? = some o → getOwn o name = some v →
        (∀ j, j < i → ∀ o2, (protoChain h fuel addr)[j]? = some o2 →
          getOwn o2 name = none) →
        invoke h fuel addr name = Except.ok v) := by
  constructor
  · rw [invoke, lookupProp_eq_findSome, definedInChain]
    cases hfs : (protoChain h fuel addr).findSome? (fun o => getOwn o name) with
    | some v =>
        obtain ⟨o, hmem, ho⟩ := List.exists_of_findSome?_eq_some hfs
        simp only [List.any_eq_false]
        constructor
        · intro hcontra; cases hcontra
        · intro hall
          exact absurd (by simp [ho] : ((fun o => getOwn o name) o) ≠ none)
            (fun hne => hne (by simpa using (hall o hmem)))
    | none =>
        rw [List.findSome?_eq_none_iff] at hfs
        simp only [List.any_eq_false]
        constructor
        · intro _ o hmem
          simp [hfs o hmem]
        · intro _; trivial
  · intro i o v hi hv hearlier
    rw [invoke, lookupProp_eq_findSome,
      findSome_eq_of_earliest (fun o => getOwn o name) (protoChain h fuel addr)
        i o v hi hv hearlier]

/-- Witness for C6 at the demo heap: `quack` is defined nowhere along `dog7`'s
chain and fails with `PropertyNotFound`; `bark` is defined first at chain
position 2 (`Dog.prototype`) and resolves there without error. -/
theorem propertyNotFound_correct_witness :
    invoke demoHeap 3 4 "quack" = Except.error "PropertyNotFound"
    ∧ invoke demoHeap 3 4 "bark" = Except.ok barkFn := by
  constructor
  · exact (propertyNotFound_correct demoHeap 3 4 "quack").1.mpr (by decide)
  · apply (propertyNotFound_correct demoHeap 3 4 "bark").2 2 dogProtoObj barkFn
      (by decide) (by decide)
    intro j hj o2 ho2
    match j, hj with
    | 0, _ => exact Option.some_inj.mp ho2 ▸ rfl
    | 1, _ => exact Option.some_inj.mp ho2 ▸ rfl

/-! ### Singleton demo (`SingletonPattern`)

The module-level variables `instance` and `counter` form the process-wide
state; `inst` records whether `instance` is set.  The handle returned by
`new Counter()` exposes `getCounte`, `increment` and `decrement`, which read
and mutate the shared `counter` through closures; `Object.freeze` only sets
the handle's frozen flag.  The overwriting closure
`() => console.log('decrement function called')` is the `logOnly` method. -/

structure SingletonState where
  inst : Bool
  counter : Int
deriving DecidableEq, Repr

def initialSingleton : SingletonState := { inst := false, counter := 0 }

inductive CMethod where
  | getCounte : CMethod
  | increment : CMethod
  | decrement : CMethod
  | logOnly : String → CMethod
deriving DecidableEq, Repr

/-- Run a handle method against the shared module state: result value,
console lines, next state.  `increment` is `return ++counter`, `decrement`
is `return --counter`. -/
def runCMethod : CMethod → SingletonState → Option Int × List String × SingletonState
  | CMethod.getCounte, s => (some s.counter, [], s)
  | CMethod.increment, s => (some (s.counter + 1), [], { s with counter := s.counter + 1 })
  | CMethod.decrement, s => (some (s.counter - 1), [], { s with counter := s.counter - 1 })
  | CMethod.logOnly m, s => (none, [m], s)

structure CounterHandle where
  methods : List (String × CMethod)
  frozen : Bool
deriving DecidableEq, Repr

def counterMethods : List (String × CMethod) :=
  [("getCounte", CMethod.getCounte), ("increment", CMethod.increment),
   ("decrement", CMethod.decrement)]

/-- Construction `new Counter()`: throws when `instance` is already set, otherwise sets
`instance` and yields the handle. -/
def constructCounter (s : SingletonState) :
    Except String (CounterHandle × SingletonState) :=
  if s.inst then Except.error "You can only create one instance!"
  else Except.ok ({ methods := counterMethods, frozen := false },
    { s with inst := true })

def freezeHandle (h : CounterHandle) : CounterHandle := { h with frozen := true }

/-- The handle `const singletonCounter = Object.freeze(new Counter())`. -/
def singletonCounter : CounterHandle :=
  freezeHandle { methods := counterMethods, frozen := false }

/-- Property assignment on the handle: silently ignored when frozen. -/
def assignMethod (h : CounterHandle) (name : String) (m : CMethod) : CounterHandle :=
  if h.frozen then h else { h with methods := setAssoc h.methods name m }

def callMethod (h : CounterHandle) (name : String) (s : SingletonState) :
    Except String (Option Int × List String × SingletonState) :=
  match getAssoc h.methods name with
  | some m => Except.ok (runCMethod m s)
  | none => Except.error "PropertyNotFound"

/-- C2 (Singleton uniqueness): the first construction, from the pristine
module state, succeeds and yields the counter handle; construction fails with
the `SingletonViolation` error exactly when an instance already exists; and
any successful construction records the instance, so every later direct
construction attempt fails. -/
theorem singleton_uniqueness :
    constructCounter initialSingleton
      = Except.ok ({ methods := counterMethods, frozen := false },
          { inst := true, counter := 0 })
    ∧ (∀ s : SingletonState,
        constructCounter s = Except.error "You can only create one instance!"
          ↔ s.inst = true)
    ∧ (∀ (s s2 : SingletonState) (h : CounterHandle),
        constructCounter s = Except.ok (h, s2) → s2.inst = true) := by
  refine ⟨rfl, ?_, ?_⟩
  · intro s
    cases hs : s.inst <;> simp [constructCounter, hs]
  · intro s s2 h hok
    cases hs : s.inst <;> simp [constructCounter, hs] at hok
    obtain ⟨-, h2⟩ := hok
    rw [← h2]

/-- Witness for C2: with an instance already recorded, direct construction
fails with the violation error. -/
theorem singleton_uniqueness_witness :
    constructCounter { inst := true, counter := 0 }
      = Except.error "You can only create one instance!" :=
  (singleton_uniqueness.2.1 { inst := true, counter := 0 }).mpr rfl

/-- C4 (Singleton freeze): assigning a replacement `decrement` to the frozen
handle is a no-op — the handle is unchanged, and every subsequent `decrement`
call still runs the original logic, returning and storing `counter - 1`. -/
theorem singleton_freeze (s : SingletonState) :
    assignMethod singletonCounter "decrement"
        (CMethod.logOnly "decrement function called")
      = singletonCounter
    ∧ callMethod
        (assignMethod singletonCounter "decrement"
          (CMethod.logOnly "decrement function called")) "decrement" s
      = Except.ok (some (s.counter - 1), [], { s with counter := s.counter - 1 }) :=
  ⟨rfl, rfl⟩

/-- C8 (Counter mutation): through any handle whose `increment`/`decrement`
members are the shared counter methods, `increment` returns `counter + 1`
after storing it and `decrement` returns `counter - 1` after storing it, on
the one shared module state, and neither call raises an error. -/
theorem counter_mutation (h : CounterHandle) (s : SingletonState)
    (hinc : getAssoc h.methods "increment" = some CMethod.increment)
    (hdec : getAssoc h.methods "decrement" = some CMethod.decrement) :
    callMethod h "increment" s
      = Except.ok (some (s.counter + 1), [], { s with counter := s.counter + 1 })
    ∧ callMethod h "decrement" s
      = Except.ok (some (s.counter - 1), [], { s with counter := s.counter - 1 }) := by
  rw [callMethod, hinc, callMethod, hdec]
  exact ⟨rfl, rfl⟩

/-- Witness for C8 at the frozen demo handle and the initial state. -/
theorem counter_mutation_witness :
    callMethod singletonCounter "increment" initialSingleton
      = Except.ok (some 1, [], { inst := false, counter := 1 })
    ∧ callMethod singletonCounter "decrement" initialSingleton
      = Except.ok (some (-1), [], { inst := false, counter := -1 }) :=
  counter_mutation singletonCounter initialSingleton rfl rfl

/-! ### Proxy demo (`ProxyPattern.js`)

A target is a plain key/value object; a proxy binding is the target plus a
handler with optional `get`/`set` traps.  With no trap, the operation falls
through to the target.  With a trap, the caller receives exactly the trap's
return value and the trap's console lines.  Values in the demo are strings
and numbers. -/

inductive PVal where
  | pstr : String → PVal
  | pnum : Int → PVal
deriving DecidableEq, Repr

abbrev Target := List (String × PVal)

/-- JavaScript template-literal rendering of `obj[prop]` (a missing property
renders as `undefined`). -/
def valToString : Option PVal → String
  | none => "undefined"
  | some (PVal.pstr s) => s
  | some (PVal.pnum n) => toString n

/-- JavaScript truthiness of `obj[prop]`: `undefined`, `""` and `0` are
falsy. -/
def truthy : Option PVal → Bool
  | none => false
  | some (PVal.pstr s) => !s.isEmpty
  | some (PVal.pnum n) => n != 0

/-- The test `typeof value == 'number'`. -/
def isNum : PVal → Bool
  | PVal.pnum _ => true
  | PVal.pstr _ => false

/-- JavaScript `value.length < 2`: a string compares its length; a number has
no `length`, and `undefined < 2` is false. -/
def jsLenLt2 : PVal → Bool
  | PVal.pstr s => decide (s.length < 2)
  | PVal.pnum _ => false

structure Handler where
  getTrap : Option (Target → String → Option PVal × List String)
  setTrap : Option (Target → String → PVal → Target × List String)

/-- Proxy property read: trap result if a `get` trap exists, else the raw
target value.  Returns the value surfaced to the caller and console lines. -/
def proxyGet (h : Handler) (t : Target) (p : String) : Option PVal × List String :=
  match h.getTrap with
  | none => (getAssoc t p, [])
  | some g => g t p

/-- Proxy property write: trap if a `set` trap exists, else the raw write.
Returns the resulting target and console lines. -/
def proxySet (h : Handler) (t : Target) (p : String) (v : PVal) :
    Target × List String :=
  match h.setTrap with
  | none => (setAssoc t p v, [])
  | some f => f t p v

def person : Target :=
  [("name", PVal.pstr "John Doe"), ("age", PVal.pnum 42),
   ("nationality", PVal.pstr "American")]

/-- The binding `new Proxy(person, {})`: no traps. -/
def emptyHandler : Handler := { getTrap := none, setTrap := none }

/-- The handler of `personProxy1`: the logging traps.  Its `get` trap only logs
and has no return statement, so the caller receives `undefined` (`none`). -/
def handler1 : Handler :=
  { getTrap := some (fun obj prop =>
      (none, ["The value of " ++ prop ++ " is " ++ valToString (getAssoc obj prop)])),
    setTrap := some (fun obj prop value =>
      (setAssoc obj prop value,
       ["Changed " ++ prop ++ " from " ++ valToString (getAssoc obj prop)
          ++ " to " ++ valToString (some value)])) }

def apostrophe : String := String.singleton (Char.ofNat 39)

/-- The message printed by `personProxy2`'s `get` trap for a missing
property, verbatim from the source: `This property dose't exist in objext`. -/
def missingPropMsg : String :=
  "This property dose" ++ apostrophe ++ "t exist in objext"

/-- The handler of `personProxy2`: the validating traps.  The `get` trap branches
on the truthiness of `obj[prop]` and only logs (no return statement); the
`set` trap rejects a non-numeric `age` and a short `name` without mutating,
and otherwise logs and writes. -/
def handler2 : Handler :=
  { getTrap := some (fun obj prop =>
      if !truthy (getAssoc obj prop) then
        (none, [missingPropMsg])
      else
        (none, ["The value of " ++ prop ++ " is " ++ valToString (getAssoc obj prop)])),
    setTrap := some (fun obj prop value =>
      if prop == "age" && !isNum value then
        (obj, ["Sorry you can only pass numeric value for age"])
      else if prop == "name" && jsLenLt2 value then
        (obj, ["Invalid name "])
      else
        (setAssoc obj prop value,
         ["Changed " ++ prop ++ " from " ++ valToString (getAssoc obj prop)
            ++ " to " ++ valToString (some value) ++ "."])) }

/-- C7 (Proxy read passthrough): for every property present on the target,
reading through a binding whose handler defines no `get` trap returns the raw
target value unchanged (and logs nothing). -/
theorem proxy_read_passthrough (t : Target) (p : String) (v : PVal)
    (hv : getAssoc t p = some v) :
    proxyGet emptyHandler t p = (some v, []) := by
  rw [proxyGet]
  simp [emptyHandler, hv]

/-- Witness for C7: reading `name` on `person` through the trapless binding
yields the raw value `John Doe`. -/
theorem proxy_read_passthrough_witness :
    getAssoc person "name" = some (PVal.pstr "John Doe")
    ∧ proxyGet emptyHandler person "name" = (some (PVal.pstr "John Doe"), []) :=
  ⟨rfl, proxy_read_passthrough person "name" (PVal.pstr "John Doe") rfl⟩

/-- C9 (falsy values read as missing): the validation proxy's `get` trap
decides presence by the truthiness of `target[prop]`, so reading a property
that exists on the target but holds a falsy value takes the
"property doesn't exist" branch instead of reporting the value. -/
theorem falsy_read_as_missing (t : Target) (p : String) (v : PVal)
    (hv : getAssoc t p = some v) (hfalsy : truthy (some v) = false) :
    proxyGet handler2 t p = (none, [missingPropMsg]) := by
  rw [proxyGet]
  simp [handler2, hv, hfalsy]

/-- Witness for C9: `age = 0` exists on the target yet reads as missing. -/
theorem falsy_read_as_missing_witness :
    getAssoc [("age", PVal.pnum 0)] "age" = some (PVal.pnum 0)
    ∧ truthy (some (PVal.pnum 0)) = false
    ∧ proxyGet handler2 [("age", PVal.pnum 0)] "age" = (none, [missingPropMsg]) :=
  ⟨rfl, rfl, falsy_read_as_missing [("age", PVal.pnum 0)] "age" (PVal.pnum 0) rfl rfl⟩

/-- C10 (interceptor reads yield undefined): both interception handlers' `get`
traps only log and return nothing, so every read through `personProxy1` or
`personProxy2` surfaces `undefined` to the caller, whatever the target holds. -/
theorem interceptor_reads_undefined (t : Target) (p : String) :
    (proxyGet handler1 t p).1 = none ∧ (proxyGet handler2 t p).1 = none := by
  refine ⟨rfl, ?_⟩
  rw [proxyGet]
  by_cases hcond : truthy (getAssoc t p) <;> simp [handler2, hcond]

/-- C3 (Proxy write validation): under the numeric-age policy, writing the
string `"23"` to `age` returns normally, emits only the rejection diagnostic
and leaves the whole target (in particular `target.age`) unchanged; writing
the number `23` to `age` updates `target.age` to `23`. -/
theorem proxy_write_validation (t : Target) :
    proxySet handler2 t "age" (PVal.pstr "23")
      = (t, ["Sorry you can only pass numeric value for age"])
    ∧ getAssoc (proxySet handler2 t "age" (PVal.pnum 23)).1 "age"
      = some (PVal.pnum 23) := by
  constructor
  · rfl
  · show getAssoc (setAssoc t "age" (PVal.pnum 23)) "age" = some (PVal.pnum 23)
    exact getAssoc_setAssoc_self t "age" (PVal.pnum 23)

/-- Witness for C4 at the initial module state: the overwrite attempt leaves
the frozen handle intact and `decrement` still stores and returns `-1`. -/
theorem singleton_freeze_witness :
    assignMethod singletonCounter "decrement"
        (CMethod.logOnly "decrement function called")
      = singletonCounter
    ∧ callMethod
        (assignMethod singletonCounter "decrement"
          (CMethod.logOnly "decrement function called")) "decrement" initialSingleton
      = Except.ok (some (-1), [], { inst := false, counter := -1 }) :=
  singleton_freeze initialSingleton

/-- Witness for C3 at the demo `person` object. -/
theorem proxy_write_validation_witness :
    proxySet handler2 person "age" (PVal.pstr "23")
      = (person, ["Sorry you can only pass numeric value for age"])
    ∧ getAssoc (proxySet handler2 person "age" (PVal.pnum 23)).1 "age"
      = some (PVal.pnum 23) :=
  proxy_write_validation person

/-- Witness for C10 at the demo `person` object. -/
theorem interceptor_reads_undefined_witness :
    (proxyGet handler1 person "name").1 = none
    ∧ (proxyGet handler2 person "name").1 = none :=
  interceptor_reads_undefined person "name"

end DesignPatterns
